import Mathlib

/-!
Shallow embedding of the two replicator-dynamics engines of the
`modeling_soccer_transfers` repository, over exact rationals:

* `Club`   embeds `src/club_strategy.py`  (`payoffs`, `replicator_dynamics`, `simulate`);
* `Player` embeds `src/player_strategy.py` (`replicator_dynamics`, `solve_ode`).

Real-valued machine arithmetic is modelled by `ℚ`; `np.linspace(0, T, 1000)`
by the grid `i ↦ T * i / 999`; `np.clip(v, 0, 1)` by `clip01`.
-/

set_option maxRecDepth 8000

/-- `np.linspace(0, T, 1000)` evaluated at index `i`: `T * i / 999`. -/
def tGrid (T : ℚ) (i : Nat) : ℚ := T * i / 999

/-- `np.clip(v, 0, 1)`. -/
def clip01 (v : ℚ) : ℚ := max 0 (min v 1)

namespace Club

/-- The two club strategies of `club_strategy.py`. -/
inductive Strategy
  | Youth
  | Star
deriving DecidableEq

/-- A payoff table of the shape of the module-level `payoffs` dict:
a (Saudi, Europe) payoff pair for each (Saudi strategy, Europe strategy) pair. -/
def PayoffTable : Type := Strategy → Strategy → ℚ × ℚ

/-- The module-level `payoffs` dict of `club_strategy.py`. -/
def payoffs : PayoffTable
  | .Youth, .Youth => (4, 4)
  | .Youth, .Star  => (2, 5)
  | .Star,  .Youth => (5, 2)
  | .Star,  .Star  => (1, 1)

/-- `replicator_dynamics(x, y)` of `club_strategy.py`, with the payoff table it
reads from the enclosing module made an explicit argument.  Returns `(dx, dy)`. -/
def replicator_dynamics (P : PayoffTable) (x y : ℚ) : ℚ × ℚ :=
  let saudi_youth_payoff := y * (P .Youth .Youth).1 + (1 - y) * (P .Youth .Star).1
  let saudi_star_payoff  := y * (P .Star .Youth).1 + (1 - y) * (P .Star .Star).1
  let saudi_avg := x * saudi_youth_payoff + (1 - x) * saudi_star_payoff
  let euro_youth_payoff := x * (P .Youth .Youth).2 + (1 - x) * (P .Star .Youth).2
  let euro_star_payoff  := x * (P .Youth .Star).2 + (1 - x) * (P .Star .Star).2
  let euro_avg := y * euro_youth_payoff + (1 - y) * euro_star_payoff
  (x * (1 - x) * (saudi_youth_payoff - saudi_avg),
   y * (1 - y) * (euro_youth_payoff - euro_avg))

/-- The `params` dict consumed by `simulate`. -/
structure ClubParams where
  x0 : ℚ
  y0 : ℚ
  t_end : ℚ

/-- `dt = t[1] - t[0]` inside `simulate`. -/
def clubDt (p : ClubParams) : ℚ := tGrid p.t_end 1 - tGrid p.t_end 0

/-- The state `(x[i], y[i])` reached by the Euler loop of `simulate`:
`x[0], y[0] = x0, y0`, and each later sample is the clipped Euler update
of the previous one. -/
def clubState (P : PayoffTable) (p : ClubParams) : Nat → ℚ × ℚ
  | 0 => (p.x0, p.y0)
  | i + 1 =>
      let s := clubState P p i
      let d := replicator_dynamics P s.1 s.2
      (clip01 (s.1 + d.1 * clubDt p), clip01 (s.2 + d.2 * clubDt p))

/-- `simulate(params)` of `club_strategy.py`: the triple `(t, x, y)` of
1000-sample series. -/
def simulate (p : ClubParams) : List ℚ × List ℚ × List ℚ :=
  ((List.range 1000).map (fun i => tGrid p.t_end i),
   (List.range 1000).map (fun i => (clubState payoffs p i).1),
   (List.range 1000).map (fun i => (clubState payoffs p i).2))

/-- Joint proportion series `x*y` plotted by `club_strategy.py`. -/
def joint_yy (p : ClubParams) (i : Nat) : ℚ :=
  (clubState payoffs p i).1 * (clubState payoffs p i).2

/-- Joint proportion series `x*(1 - y)`. -/
def joint_ys (p : ClubParams) (i : Nat) : ℚ :=
  (clubState payoffs p i).1 * (1 - (clubState payoffs p i).2)

/-- Joint proportion series `(1 - x)*y`. -/
def joint_sy (p : ClubParams) (i : Nat) : ℚ :=
  (1 - (clubState payoffs p i).1) * (clubState payoffs p i).2

/-- Joint proportion series `(1 - x)*(1 - y)`. -/
def joint_ss (p : ClubParams) (i : Nat) : ℚ :=
  (1 - (clubState payoffs p i).1) * (1 - (clubState payoffs p i).2)

end Club

namespace Player

/-- The `params` dict consumed by `solve_ode`. -/
structure PlayerParams where
  a0 : ℚ
  d0 : ℚ
  b : ℚ
  pGrow : ℚ
  mGrow : ℚ
  x0 : ℚ
  t_end : ℚ

/-- `replicator_dynamics(x, a0, d0, b, pGrow, mGrow)` of `player_strategy.py`:
returns `(dx, fP, fM, a, d)`. -/
def replicator_dynamics (q : PlayerParams) (x : ℚ) : ℚ × ℚ × ℚ × ℚ × ℚ :=
  let a := q.a0 + q.pGrow * x
  let d := q.d0 + q.mGrow * (1 - x)
  let fP := a * x + q.b * (1 - x)
  let fM := q.b * x + d * (1 - x)
  (x * (1 - x) * (fP - fM), fP, fM, a, d)

/-- `dt = t[1] - t[0]` inside `solve_ode`. -/
def playerDt (q : PlayerParams) : ℚ := tGrid q.t_end 1 - tGrid q.t_end 0

/-- The state `x[i]` reached by the Euler loop of `solve_ode`: `x[0] = x0`,
`x[i+1] = x[i] + dx * dt`, with no clipping. -/
def x_series (q : PlayerParams) : Nat → ℚ
  | 0 => q.x0
  | i + 1 => x_series q i + (replicator_dynamics q (x_series q i)).1 * playerDt q

/-- The recorded series `fP[i]`.  The loop of `solve_ode` writes `fP[i-1]` from
the state `x[i-1]` at the start of step `i` (covering indices `0..998`), and
the final extra call writes `fP[999]` from the terminal `x[999]`; both write
the `fP` component of `replicator_dynamics` at `x[i]`. -/
def fP_series (q : PlayerParams) (i : Nat) : ℚ :=
  (replicator_dynamics q (x_series q i)).2.1

/-- The recorded series `fM[i]` (same write pattern as `fP`). -/
def fM_series (q : PlayerParams) (i : Nat) : ℚ :=
  (replicator_dynamics q (x_series q i)).2.2.1

/-- The recorded series `a[i]` (same write pattern as `fP`). -/
def a_series (q : PlayerParams) (i : Nat) : ℚ :=
  (replicator_dynamics q (x_series q i)).2.2.2.1

/-- The recorded series `d[i]` (same write pattern as `fP`). -/
def d_series (q : PlayerParams) (i : Nat) : ℚ :=
  (replicator_dynamics q (x_series q i)).2.2.2.2

/-- `solve_ode(params)` of `player_strategy.py`: the tuple
`(t, x, fP, fM, a, d)` of 1000-sample series. -/
def solve_ode (q : PlayerParams) : List ℚ × List ℚ × List ℚ × List ℚ × List ℚ × List ℚ :=
  ((List.range 1000).map (fun i => tGrid q.t_end i),
   (List.range 1000).map (fun i => x_series q i),
   (List.range 1000).map (fun i => fP_series q i),
   (List.range 1000).map (fun i => fM_series q i),
   (List.range 1000).map (fun i => a_series q i),
   (List.range 1000).map (fun i => d_series q i))

end Player

/-- The slider defaults of `club_strategy.py`: `x0 = y0 = 0.5`, `t_end = 10`. -/
def cpHalf : Club.ClubParams := ⟨1/2, 1/2, 10⟩

/-- A club run started on the boundary corner `x0 = 1`, `y0 = 0`. -/
def cpCorner : Club.ClubParams := ⟨1, 0, 10⟩

/-- A club run started with `x0 = 1` and an interior `y0`. -/
def cpEdge : Club.ClubParams := ⟨1, 1/2, 10⟩

/-- A club run with the degenerate horizon `t_end = 0`. -/
def cpZero : Club.ClubParams := ⟨3/10, 7/10, 0⟩

/-- The slider defaults of `player_strategy.py`. -/
def ppDefault : Player.PlayerParams := ⟨5/2, 2, 7/5, 1, 5, 3/5, 10⟩

/-- The player defaults with the boundary start `x0 = 1`. -/
def ppOne : Player.PlayerParams := ⟨5/2, 2, 7/5, 1, 5, 1, 10⟩

/-- The player defaults with the degenerate horizon `t_end = 0`. -/
def ppZero : Player.PlayerParams := ⟨5/2, 2, 7/5, 1, 5, 3/5, 0⟩

lemma clip01_nonneg (v : ℚ) : 0 ≤ clip01 v := le_max_left 0 (min v 1)

lemma clip01_le_one (v : ℚ) : clip01 v ≤ 1 :=
  max_le (by norm_num) (min_le_right v 1)

lemma clip01_of_mem (v : ℚ) (h0 : 0 ≤ v) (h1 : v ≤ 1) : clip01 v = v := by
  rw [clip01, min_eq_left h1, max_eq_right h0]

lemma clip01_zero : clip01 0 = 0 := clip01_of_mem 0 le_rfl (by norm_num)

lemma clip01_one : clip01 1 = 1 := clip01_of_mem 1 (by norm_num) le_rfl

/-- The club `dx` vanishes whenever `x` is on the boundary, for every table. -/
lemma club_dx_eq_zero (P : Club.PayoffTable) (x y : ℚ) (h : x = 0 ∨ x = 1) :
    (Club.replicator_dynamics P x y).1 = 0 := by
  rcases h with h | h <;> subst h <;> simp [Club.replicator_dynamics]

/-- The club `dy` vanishes whenever `y` is on the boundary, for every table. -/
lemma club_dy_eq_zero (P : Club.PayoffTable) (x y : ℚ) (h : y = 0 ∨ y = 1) :
    (Club.replicator_dynamics P x y).2 = 0 := by
  rcases h with h | h <;> subst h <;> simp [Club.replicator_dynamics]

/-- The player `dx` vanishes whenever `x` is on the boundary. -/
lemma player_dx_eq_zero (q : Player.PlayerParams) (x : ℚ) (h : x = 0 ∨ x = 1) :
    (Player.replicator_dynamics q x).1 = 0 := by
  rcases h with h | h <;> subst h <;> simp [Player.replicator_dynamics]

/-- C1: Club engine per-step algorithm: at every step of `simulate`, given the
current `(x, y)`, population A's expected Youth payoff is
`y*payoff[(Youth,Youth)].A + (1-y)*payoff[(Youth,Star)].A` (Star payoff
analogously from the Star row), A's average payoff is
`x*(Youth payoff) + (1-x)*(Star payoff)`, the mirrored quantities for B use `x`
in place of `y` with the opposite payoff index, the rate is
`dx = x*(1-x)*(A's Youth payoff - A's average payoff)` (symmetric for `dy`),
and the next state is `clamp(x + dx*dt, 0, 1)` (same for `y`). -/
theorem club_per_step_algorithm (P : Club.PayoffTable) (p : Club.ClubParams) (i : Nat) :
    (Club.clubState P p (i + 1)).1
        = clip01 ((Club.clubState P p i).1
            + (Club.replicator_dynamics P (Club.clubState P p i).1 (Club.clubState P p i).2).1
              * Club.clubDt p)
    ∧ (Club.clubState P p (i + 1)).2
        = clip01 ((Club.clubState P p i).2
            + (Club.replicator_dynamics P (Club.clubState P p i).1 (Club.clubState P p i).2).2
              * Club.clubDt p)
    ∧ ∀ x y : ℚ,
        (Club.replicator_dynamics P x y).1
          = x * (1 - x)
            * ((y * (P .Youth .Youth).1 + (1 - y) * (P .Youth .Star).1)
               - (x * (y * (P .Youth .Youth).1 + (1 - y) * (P .Youth .Star).1)
                  + (1 - x) * (y * (P .Star .Youth).1 + (1 - y) * (P .Star .Star).1)))
        ∧ (Club.replicator_dynamics P x y).2
          = y * (1 - y)
            * ((x * (P .Youth .Youth).2 + (1 - x) * (P .Star .Youth).2)
               - (y * (x * (P .Youth .Youth).2 + (1 - x) * (P .Star .Youth).2)
                  + (1 - y) * (x * (P .Youth .Star).2 + (1 - x) * (P .Star .Star).2))) :=
  ⟨rfl, rfl, fun _ _ => ⟨rfl, rfl⟩⟩

/-- C2: Player engine per-step algorithm: the series returned by `solve_ode`
satisfy `a[i] = a0 + pGrow*x[i]`, `d[i] = d0 + mGrow*(1-x[i])`,
`fP[i] = a[i]*x[i] + b*(1-x[i])`, `fM[i] = b*x[i] + d[i]*(1-x[i])`; each step
updates `x[i+1] = x[i] + x[i]*(1-x[i])*(fP[i]-fM[i])*dt` with no clamping;
`fP, fM, a, d` are recorded from the state at the start of each step, and the
final sample's values come from one extra evaluation of these formulas at the
terminal `x` (not extrapolated). -/
theorem player_per_step_algorithm (q : Player.PlayerParams) (i : Nat) :
    Player.a_series q i = q.a0 + q.pGrow * Player.x_series q i
    ∧ Player.d_series q i = q.d0 + q.mGrow * (1 - Player.x_series q i)
    ∧ Player.fP_series q i
        = Player.a_series q i * Player.x_series q i + q.b * (1 - Player.x_series q i)
    ∧ Player.fM_series q i
        = q.b * Player.x_series q i + Player.d_series q i * (1 - Player.x_series q i)
    ∧ Player.x_series q (i + 1)
        = Player.x_series q i
          + Player.x_series q i * (1 - Player.x_series q i)
            * (Player.fP_series q i - Player.fM_series q i) * Player.playerDt q :=
  ⟨rfl, rfl, rfl, rfl, rfl⟩

/-- A clipped Euler step from a boundary `x` value leaves it unchanged. -/
lemma club_x_step_eq (P : Club.PayoffTable) (p : Club.ClubParams) (j : Nat)
    (h : (Club.clubState P p j).1 = 0 ∨ (Club.clubState P p j).1 = 1) :
    (Club.clubState P p (j + 1)).1 = (Club.clubState P p j).1 := by
  have hdx := club_dx_eq_zero P (Club.clubState P p j).1 (Club.clubState P p j).2 h
  simp only [Club.clubState, hdx, zero_mul, add_zero]
  rcases h with h | h <;> rw [h] <;> simp [clip01_zero, clip01_one]

/-- A clipped Euler step from a boundary `y` value leaves it unchanged. -/
lemma club_y_step_eq (P : Club.PayoffTable) (p : Club.ClubParams) (j : Nat)
    (h : (Club.clubState P p j).2 = 0 ∨ (Club.clubState P p j).2 = 1) :
    (Club.clubState P p (j + 1)).2 = (Club.clubState P p j).2 := by
  have hdy := club_dy_eq_zero P (Club.clubState P p j).1 (Club.clubState P p j).2 h
  simp only [Club.clubState, hdy, zero_mul, add_zero]
  rcases h with h | h <;> rw [h] <;> simp [clip01_zero, clip01_one]

/-- C3: Club clamping invariant: for every input with `x0` in `[0,1]`, `y0` in
`[0,1]`, and `t_end > 0`, every sample of the trajectory returned by `simulate`
satisfies `x[i]` in `[0,1]` and `y[i]` in `[0,1]`, even when the unclamped
Euler step would exceed those bounds for large `dt`. -/
theorem club_clamping_invariant (p : Club.ClubParams)
    (hx0 : 0 ≤ p.x0) (hx1 : p.x0 ≤ 1) (hy0 : 0 ≤ p.y0) (hy1 : p.y0 ≤ 1)
    (ht : 0 < p.t_end) (i : Nat) :
    0 ≤ (Club.clubState Club.payoffs p i).1 ∧ (Club.clubState Club.payoffs p i).1 ≤ 1
    ∧ 0 ≤ (Club.clubState Club.payoffs p i).2 ∧ (Club.clubState Club.payoffs p i).2 ≤ 1 := by
  cases i with
  | zero => exact ⟨hx0, hx1, hy0, hy1⟩
  | succ n => exact ⟨clip01_nonneg _, clip01_le_one _, clip01_nonneg _, clip01_le_one _⟩

/-- Witness instantiating `club_clamping_invariant` at the default club run. -/
theorem club_clamping_invariant_witness :
    ((0:ℚ) ≤ cpHalf.x0 ∧ cpHalf.x0 ≤ 1 ∧ 0 ≤ cpHalf.y0 ∧ cpHalf.y0 ≤ 1 ∧ 0 < cpHalf.t_end)
    ∧ (0 ≤ (Club.clubState Club.payoffs cpHalf 3).1
       ∧ (Club.clubState Club.payoffs cpHalf 3).1 ≤ 1
       ∧ 0 ≤ (Club.clubState Club.payoffs cpHalf 3).2
       ∧ (Club.clubState Club.payoffs cpHalf 3).2 ≤ 1) :=
  ⟨⟨by norm_num [cpHalf], by norm_num [cpHalf], by norm_num [cpHalf], by norm_num [cpHalf],
    by norm_num [cpHalf]⟩,
   club_clamping_invariant cpHalf (by norm_num [cpHalf]) (by norm_num [cpHalf])
     (by norm_num [cpHalf]) (by norm_num [cpHalf]) (by norm_num [cpHalf]) 3⟩

/-- C6: Club boundary fixed points: for all payoff tables of the assumed
2x2x2 shape and every `t_end > 0`, if `x0` is in `{0,1}` and `y0` is in
`{0,1}`, then the trajectory returned by `simulate` is constant:
`x[i] = x0` and `y[i] = y0` for every `i`. -/
theorem club_boundary_fixed_points (P : Club.PayoffTable) (p : Club.ClubParams)
    (hx : p.x0 = 0 ∨ p.x0 = 1) (hy : p.y0 = 0 ∨ p.y0 = 1) (ht : 0 < p.t_end) (i : Nat) :
    Club.clubState P p i = (p.x0, p.y0) := by
  induction i with
  | zero => rfl
  | succ n ih =>
    have hdx := club_dx_eq_zero P p.x0 p.y0 hx
    have hdy := club_dy_eq_zero P p.x0 p.y0 hy
    have hcx : clip01 p.x0 = p.x0 := by
      rcases hx with h | h <;> simp [h, clip01_zero, clip01_one]
    have hcy : clip01 p.y0 = p.y0 := by
      rcases hy with h | h <;> simp [h, clip01_zero, clip01_one]
    simp [Club.clubState, ih, hdx, hdy, hcx, hcy]

/-- Witness instantiating `club_boundary_fixed_points` at the corner
`x0 = 1`, `y0 = 0` with the repository's payoff table. -/
theorem club_boundary_fixed_points_witness :
    ((cpCorner.x0 = 0 ∨ cpCorner.x0 = 1) ∧ (cpCorner.y0 = 0 ∨ cpCorner.y0 = 1)
      ∧ 0 < cpCorner.t_end)
    ∧ Club.clubState Club.payoffs cpCorner 7 = (cpCorner.x0, cpCorner.y0) :=
  ⟨⟨Or.inr rfl, Or.inl rfl, by norm_num [cpCorner]⟩,
   club_boundary_fixed_points Club.payoffs cpCorner (Or.inr rfl) (Or.inl rfl)
     (by norm_num [cpCorner]) 7⟩

/-- C7: Player boundary fixed points: for all values of `a0, d0, b, pGrow,
mGrow` and every `t_end > 0`, if `x0` is in `{0,1}`, then `dx = 0` at every
step and `solve_ode` returns `x[i] = x0` for every `i`. -/
theorem player_boundary_fixed_points (q : Player.PlayerParams)
    (hx : q.x0 = 0 ∨ q.x0 = 1) (ht : 0 < q.t_end) (i : Nat) :
    (Player.replicator_dynamics q (Player.x_series q i)).1 = 0
    ∧ Player.x_series q i = q.x0 := by
  induction i with
  | zero => exact ⟨player_dx_eq_zero q q.x0 hx, rfl⟩
  | succ n ih =>
    have hx' : Player.x_series q (n + 1) = q.x0 := by
      show Player.x_series q n
          + (Player.replicator_dynamics q (Player.x_series q n)).1 * Player.playerDt q = q.x0
      rw [ih.1, zero_mul, add_zero, ih.2]
    refine ⟨?_, hx'⟩
    rw [hx']
    exact player_dx_eq_zero q q.x0 hx

/-- Witness instantiating `player_boundary_fixed_points` at the default player
coefficients with `x0 = 1`. -/
theorem player_boundary_fixed_points_witness :
    ((ppOne.x0 = 0 ∨ ppOne.x0 = 1) ∧ 0 < ppOne.t_end)
    ∧ (Player.replicator_dynamics ppOne (Player.x_series ppOne 5)).1 = 0
    ∧ Player.x_series ppOne 5 = ppOne.x0 :=
  ⟨⟨Or.inr rfl, by norm_num [ppOne]⟩,
   player_boundary_fixed_points ppOne (Or.inr rfl) (by norm_num [ppOne]) 5⟩

/-- C10: Absorbing boundaries mid-run (club model): for any `x0, y0` in
`[0,1]` and any `t_end > 0`, if at any step `i` the trajectory satisfies
`x[i]` in `{0,1}` (whether reached by clipping or initially), then
`x[j] = x[i]` for all `j >= i`, and likewise for `y`; boundary values are
absorbing throughout the run, not only as initial conditions. -/
theorem club_absorbing_boundaries (p : Club.ClubParams)
    (hx0 : 0 ≤ p.x0) (hx1 : p.x0 ≤ 1) (hy0 : 0 ≤ p.y0) (hy1 : p.y0 ≤ 1)
    (ht : 0 < p.t_end) (i j : Nat) (hij : i ≤ j) :
    ((Club.clubState Club.payoffs p i).1 = 0 ∨ (Club.clubState Club.payoffs p i).1 = 1
      → (Club.clubState Club.payoffs p j).1 = (Club.clubState Club.payoffs p i).1)
    ∧ ((Club.clubState Club.payoffs p i).2 = 0 ∨ (Club.clubState Club.payoffs p i).2 = 1
      → (Club.clubState Club.payoffs p j).2 = (Club.clubState Club.payoffs p i).2) := by
  obtain ⟨k, rfl⟩ := Nat.exists_eq_add_of_le hij
  clear hij
  constructor
  · intro hb
    induction k with
    | zero => rfl
    | succ n ih =>
      have hb' : (Club.clubState Club.payoffs p (i + n)).1 = 0
          ∨ (Club.clubState Club.payoffs p (i + n)).1 = 1 := by
        rw [ih]; exact hb
      exact (club_x_step_eq Club.payoffs p (i + n) hb').trans ih
  · intro hb
    induction k with
    | zero => rfl
    | succ n ih =>
      have hb' : (Club.clubState Club.payoffs p (i + n)).2 = 0
          ∨ (Club.clubState Club.payoffs p (i + n)).2 = 1 := by
        rw [ih]; exact hb
      exact (club_y_step_eq Club.payoffs p (i + n) hb').trans ih

/-- Witness instantiating `club_absorbing_boundaries` at a run that starts on
the `x = 1` boundary edge, from step 0 to step 4. -/
theorem club_absorbing_boundaries_witness :
    ((0:ℚ) ≤ cpEdge.x0 ∧ cpEdge.x0 ≤ 1 ∧ 0 ≤ cpEdge.y0 ∧ cpEdge.y0 ≤ 1
      ∧ 0 < cpEdge.t_end ∧ (0:Nat) ≤ 4)
    ∧ (((Club.clubState Club.payoffs cpEdge 0).1 = 0
          ∨ (Club.clubState Club.payoffs cpEdge 0).1 = 1
        → (Club.clubState Club.payoffs cpEdge 4).1 = (Club.clubState Club.payoffs cpEdge 0).1)
       ∧ ((Club.clubState Club.payoffs cpEdge 0).2 = 0
            ∨ (Club.clubState Club.payoffs cpEdge 0).2 = 1
          → (Club.clubState Club.payoffs cpEdge 4).2 = (Club.clubState Club.payoffs cpEdge 0).2)) :=
  ⟨⟨by norm_num [cpEdge], by norm_num [cpEdge], by norm_num [cpEdge], by norm_num [cpEdge],
    by norm_num [cpEdge], by norm_num⟩,
   club_absorbing_boundaries cpEdge (by norm_num [cpEdge]) (by norm_num [cpEdge])
     (by norm_num [cpEdge]) (by norm_num [cpEdge]) (by norm_num [cpEdge]) 0 4 (by norm_num)⟩

lemma tGrid_start (T : ℚ) : tGrid T 0 = 0 := by simp [tGrid]

lemma tGrid_last (T : ℚ) : tGrid T 999 = T := by
  rw [tGrid]
  norm_num

lemma tGrid_spacing (T : ℚ) (i : Nat) : tGrid T (i + 1) - tGrid T i = T / 999 := by
  rw [tGrid, tGrid]
  push_cast
  ring

lemma clubDt_eq (p : Club.ClubParams) : Club.clubDt p = p.t_end / 999 := by
  rw [Club.clubDt, tGrid_start, sub_zero, tGrid]
  norm_num

lemma playerDt_eq (q : Player.PlayerParams) : Player.playerDt q = q.t_end / 999 := by
  rw [Player.playerDt, tGrid_start, sub_zero, tGrid]
  norm_num

/-- C4: Trajectory grid shape: for every `t_end > 0`, both engines (club
`simulate` and player `solve_ode`) return a time grid of exactly 1000 samples
with `t[0] = 0`, `t[999] = t_end`, uniformly spaced with step
`dt = t_end/999`, and every returned state/derived series has length exactly
1000, constant across a call. -/
theorem trajectory_grid_shape (p : Club.ClubParams) (q : Player.PlayerParams)
    (hp : 0 < p.t_end) (hq : 0 < q.t_end) :
    (Club.simulate p).1.length = 1000
    ∧ (Club.simulate p).2.1.length = 1000
    ∧ (Club.simulate p).2.2.length = 1000
    ∧ (Player.solve_ode q).1.length = 1000
    ∧ (Player.solve_ode q).2.1.length = 1000
    ∧ (Player.solve_ode q).2.2.1.length = 1000
    ∧ (Player.solve_ode q).2.2.2.1.length = 1000
    ∧ (Player.solve_ode q).2.2.2.2.1.length = 1000
    ∧ (Player.solve_ode q).2.2.2.2.2.length = 1000
    ∧ (Club.simulate p).1 = (List.range 1000).map (fun i => tGrid p.t_end i)
    ∧ (Player.solve_ode q).1 = (List.range 1000).map (fun i => tGrid q.t_end i)
    ∧ tGrid p.t_end 0 = 0 ∧ tGrid p.t_end 999 = p.t_end
    ∧ tGrid q.t_end 0 = 0 ∧ tGrid q.t_end 999 = q.t_end
    ∧ Club.clubDt p = p.t_end / 999 ∧ Player.playerDt q = q.t_end / 999
    ∧ (∀ i : Nat, tGrid p.t_end (i + 1) - tGrid p.t_end i = p.t_end / 999)
    ∧ (∀ i : Nat, tGrid q.t_end (i + 1) - tGrid q.t_end i = q.t_end / 999) :=
  ⟨by simp [Club.simulate], by simp [Club.simulate], by simp [Club.simulate],
   by simp [Player.solve_ode], by simp [Player.solve_ode], by simp [Player.solve_ode],
   by simp [Player.solve_ode], by simp [Player.solve_ode], by simp [Player.solve_ode],
   rfl, rfl,
   tGrid_start p.t_end, tGrid_last p.t_end, tGrid_start q.t_end, tGrid_last q.t_end,
   clubDt_eq p, playerDt_eq q,
   fun i => tGrid_spacing p.t_end i, fun i => tGrid_spacing q.t_end i⟩

/-- Witness instantiating `trajectory_grid_shape` at the default parameters of
both engines. -/
theorem trajectory_grid_shape_witness :
    ((0:ℚ) < cpHalf.t_end ∧ (0:ℚ) < ppDefault.t_end)
    ∧ ((Club.simulate cpHalf).1.length = 1000
       ∧ (Club.simulate cpHalf).2.1.length = 1000
       ∧ (Club.simulate cpHalf).2.2.length = 1000
       ∧ (Player.solve_ode ppDefault).1.length = 1000
       ∧ (Player.solve_ode ppDefault).2.1.length = 1000
       ∧ (Player.solve_ode ppDefault).2.2.1.length = 1000
       ∧ (Player.solve_ode ppDefault).2.2.2.1.length = 1000
       ∧ (Player.solve_ode ppDefault).2.2.2.2.1.length = 1000
       ∧ (Player.solve_ode ppDefault).2.2.2.2.2.length = 1000
       ∧ (Club.simulate cpHalf).1 = (List.range 1000).map (fun i => tGrid cpHalf.t_end i)
       ∧ (Player.solve_ode ppDefault).1
           = (List.range 1000).map (fun i => tGrid ppDefault.t_end i)
       ∧ tGrid cpHalf.t_end 0 = 0 ∧ tGrid cpHalf.t_end 999 = cpHalf.t_end
       ∧ tGrid ppDefault.t_end 0 = 0 ∧ tGrid ppDefault.t_end 999 = ppDefault.t_end
       ∧ Club.clubDt cpHalf = cpHalf.t_end / 999
       ∧ Player.playerDt ppDefault = ppDefault.t_end / 999
       ∧ (∀ i : Nat, tGrid cpHalf.t_end (i + 1) - tGrid cpHalf.t_end i = cpHalf.t_end / 999)
       ∧ (∀ i : Nat,
           tGrid ppDefault.t_end (i + 1) - tGrid ppDefault.t_end i = ppDefault.t_end / 999)) :=
  ⟨⟨by norm_num [cpHalf], by norm_num [ppDefault]⟩,
   trajectory_grid_shape cpHalf ppDefault (by norm_num [cpHalf]) (by norm_num [ppDefault])⟩

/-- With a zero horizon every grid sample is 0. -/
lemma tGrid_zero_horizon (i : Nat) : tGrid 0 i = 0 := by simp [tGrid]

/-- With `t_end = 0` the club loop has `dt = 0` and the state never moves
(for in-range initial values, clipping is the identity). -/
lemma club_tend_zero_const (P : Club.PayoffTable) (p : Club.ClubParams) (h : p.t_end = 0)
    (hx0 : 0 ≤ p.x0) (hx1 : p.x0 ≤ 1) (hy0 : 0 ≤ p.y0) (hy1 : p.y0 ≤ 1) :
    ∀ i, Club.clubState P p i = (p.x0, p.y0) := by
  have hdt : Club.clubDt p = 0 := by simp [Club.clubDt, tGrid, h]
  intro i
  induction i with
  | zero => rfl
  | succ n ih =>
    simp [Club.clubState, ih, hdt, clip01_of_mem p.x0 hx0 hx1, clip01_of_mem p.y0 hy0 hy1]

/-- With `t_end = 0` the player loop has `dt = 0` and the state never moves. -/
lemma player_tend_zero_const (q : Player.PlayerParams) (h : q.t_end = 0) :
    ∀ i, Player.x_series q i = q.x0 := by
  have hdt : Player.playerDt q = 0 := by simp [Player.playerDt, tGrid, h]
  intro i
  induction i with
  | zero => rfl
  | succ n ih =>
    show Player.x_series q n
        + (Player.replicator_dynamics q (Player.x_series q n)).1 * Player.playerDt q = q.x0
    rw [hdt, mul_zero, add_zero, ih]

/-- C5 counterexample: with `t_end = 0` neither engine fails — both run to
completion and return a fully defined degenerate trajectory: `dt = 0`, the
final time sample is 0, and the state stays at its initial value for all
1000 samples. -/
theorem t_end_zero_no_failure_cex :
    Club.clubDt cpZero = 0
    ∧ tGrid cpZero.t_end 999 = 0
    ∧ Club.clubState Club.payoffs cpZero 999 = (3/10, 7/10)
    ∧ Player.playerDt ppZero = 0
    ∧ tGrid ppZero.t_end 999 = 0
    ∧ Player.x_series ppZero 999 = 3/5 :=
  ⟨by norm_num [Club.clubDt, tGrid, cpZero],
   by norm_num [tGrid, cpZero],
   club_tend_zero_const Club.payoffs cpZero rfl (by norm_num [cpZero]) (by norm_num [cpZero])
     (by norm_num [cpZero]) (by norm_num [cpZero]) 999,
   by norm_num [Player.playerDt, tGrid, ppZero],
   by norm_num [tGrid, ppZero],
   player_tend_zero_const ppZero rfl 999⟩

/-- C5 amended: when invoked with `t_end = 0`, neither engine fails fast or
reports a configuration error; each silently returns a degenerate trajectory
whose time samples are all 0, with `dt = 0` and the state constant at its
initial value (the club engine additionally keeps in-range initial values
unchanged under clipping). -/
theorem t_end_zero_no_failure (p : Club.ClubParams) (q : Player.PlayerParams)
    (hp : p.t_end = 0) (hx0 : 0 ≤ p.x0) (hx1 : p.x0 ≤ 1) (hy0 : 0 ≤ p.y0) (hy1 : p.y0 ≤ 1)
    (hq : q.t_end = 0) (i : Nat) :
    tGrid p.t_end i = 0 ∧ Club.clubDt p = 0
    ∧ Club.clubState Club.payoffs p i = (p.x0, p.y0)
    ∧ tGrid q.t_end i = 0 ∧ Player.playerDt q = 0
    ∧ Player.x_series q i = q.x0 :=
  ⟨by rw [hp]; exact tGrid_zero_horizon i,
   by simp [Club.clubDt, tGrid, hp],
   club_tend_zero_const Club.payoffs p hp hx0 hx1 hy0 hy1 i,
   by rw [hq]; exact tGrid_zero_horizon i,
   by simp [Player.playerDt, tGrid, hq],
   player_tend_zero_const q hq i⟩

/-- Witness instantiating `t_end_zero_no_failure` at the concrete degenerate
runs. -/
theorem t_end_zero_no_failure_witness :
    (cpZero.t_end = 0 ∧ (0:ℚ) ≤ cpZero.x0 ∧ cpZero.x0 ≤ 1 ∧ 0 ≤ cpZero.y0 ∧ cpZero.y0 ≤ 1
      ∧ ppZero.t_end = 0)
    ∧ (tGrid cpZero.t_end 42 = 0 ∧ Club.clubDt cpZero = 0
       ∧ Club.clubState Club.payoffs cpZero 42 = (cpZero.x0, cpZero.y0)
       ∧ tGrid ppZero.t_end 42 = 0 ∧ Player.playerDt ppZero = 0
       ∧ Player.x_series ppZero 42 = ppZero.x0) :=
  ⟨⟨rfl, by norm_num [cpZero], by norm_num [cpZero], by norm_num [cpZero], by norm_num [cpZero],
    rfl⟩,
   t_end_zero_no_failure cpZero ppZero rfl (by norm_num [cpZero]) (by norm_num [cpZero])
     (by norm_num [cpZero]) (by norm_num [cpZero]) rfl 42⟩

/-- At the symmetric start `(1/2, 1/2)` of scenario 1, the Saudi Youth and
Star expected payoffs are both 3, so the rate vanishes and the run never
moves: `(1/2, 1/2)` is an interior fixed point of the repository's table. -/
lemma clubState_cpHalf_const : ∀ i, Club.clubState Club.payoffs cpHalf i = (1/2, 1/2) := by
  have hd : Club.replicator_dynamics Club.payoffs ((2:ℚ)⁻¹) ((2:ℚ)⁻¹) = (0, 0) := by
    norm_num [Club.replicator_dynamics, Club.payoffs]
  have hc : clip01 ((2:ℚ)⁻¹) = 2⁻¹ := clip01_of_mem _ (by norm_num) (by norm_num)
  intro i
  induction i with
  | zero => rfl
  | succ n ih => simp [Club.clubState, ih, hd, hc]

/-- C9 counterexample: in concrete scenario 1 (`x0 = y0 = 0.5`, `t_end = 10`,
repository payoff table) the asserted strict decrease `x[999] < x[0]` is
false: the trajectory is constant at `1/2`. -/
theorem scenario1_decrease_cex :
    ¬ (Club.clubState Club.payoffs cpHalf 999).1 < (Club.clubState Club.payoffs cpHalf 0).1 := by
  rw [clubState_cpHalf_const 999, clubState_cpHalf_const 0]
  exact lt_irrefl _

/-- C9 amended: in concrete scenario 1 the point `(0.5, 0.5)` is an exact
interior fixed point of the dynamics (Star does not strictly dominate Youth in
the repository's table: at `y = 0.5` both Saudi strategies earn 3), so the
trajectory is constant: `x[i] = 0.5` and `y[i] = 0.5` for every `i`, and in
particular `x[999] = x[0]` rather than `x[999] < x[0]`. -/
theorem scenario1_constant_trajectory (i : Nat) :
    (Club.clubState Club.payoffs cpHalf i).1 = 1/2
    ∧ (Club.clubState Club.payoffs cpHalf i).2 = 1/2
    ∧ (Club.clubState Club.payoffs cpHalf 999).1 = (Club.clubState Club.payoffs cpHalf 0).1 := by
  rw [clubState_cpHalf_const i, clubState_cpHalf_const 999, clubState_cpHalf_const 0]
  exact ⟨rfl, rfl, rfl⟩

/-- C8: Joint-probability conservation: for every club-engine run and every
sample index `i`, the four derived joint-proportion series sum to 1:
`x[i]*y[i] + x[i]*(1-y[i]) + (1-x[i])*y[i] + (1-x[i])*(1-y[i]) = 1`. -/
theorem joint_probability_conservation (p : Club.ClubParams) (i : Nat) :
    Club.joint_yy p i + Club.joint_ys p i + Club.joint_sy p i + Club.joint_ss p i = 1 := by
  unfold Club.joint_yy Club.joint_ys Club.joint_sy Club.joint_ss
  ring
